import Mathlib

/-!
Shallow embedding of the simulation engine of the `testtest` electricity
market repository, together with proofs about the claims of its
specification.

Conventions of the embedding:
* Python floats are modelled as exact rationals (`ℚ`); every constant of the
  source (`0.7`, `0.02`, multipliers, template data) is the exact rational the
  source text denotes.
* Python's stable `list.sort(key=...)` is modelled by `List.insertionSort`
  with the non-strict price comparison: any two stable sorts of the same list
  under the same total preorder produce the same output list, so this is
  exactly the list the source computes.
* Fallible code (`raise`, `ZeroDivisionError`) is modelled with
  `Except String`.
* Database reads/writes are modelled by passing the relevant record values in
  and out; fields of the source records that no modelled operation reads
  (timestamps, ids of sessions, heat rates in the clearing path, ...) are
  omitted from the corresponding structures.
-/

namespace ElectricityMarket

/-- Load periods of a year, from `LoadPeriod` in
`electricity_market_backend.py`. -/
inductive LoadPeriod where
  | OFF_PEAK
  | SHOULDER
  | PEAK
deriving DecidableEq, Repr

/-- Plant technologies, from `PlantType` in `electricity_market_backend.py`. -/
inductive PlantType where
  | COAL
  | NATURAL_GAS_CC
  | NATURAL_GAS_CT
  | NUCLEAR
  | SOLAR
  | WIND_ONSHORE
  | WIND_OFFSHORE
  | BATTERY
  | HYDRO
  | BIOMASS
deriving DecidableEq, Repr

/-- Plant lifecycle states, from `PlantStatus` in
`electricity_market_backend.py` (same values as `PlantStatusEnum` in
`market_game_api.py`). -/
inductive PlantStatus where
  | OPERATING
  | UNDER_CONSTRUCTION
  | MAINTENANCE
  | RETIRED
  | PLANNED
deriving DecidableEq, Repr

/-- Game-flow states, from `GameState` in `electricity_market_backend.py`
(same values as `GameStateEnum` in `market_game_api.py`). -/
inductive GameState where
  | SETUP
  | YEAR_PLANNING
  | BIDDING_OPEN
  | MARKET_CLEARING
  | YEAR_COMPLETE
  | GAME_COMPLETE
deriving DecidableEq, Repr

/-- A yearly bid, from the dataclass `YearlyBid` in
`electricity_market_backend.py` (the `market_type` and `timestamp` fields,
which the clearing algorithm never reads, are omitted). -/
structure YearlyBid where
  id : String
  utility_id : String
  plant_id : String
  year : Int
  off_peak_quantity : ℚ
  shoulder_quantity : ℚ
  peak_quantity : ℚ
  off_peak_price : ℚ
  shoulder_price : ℚ
  peak_price : ℚ
deriving DecidableEq, Repr

/-- Annual demand profile, from the dataclass `AnnualDemandProfile` in
`electricity_market_backend.py`, with the source's default field values. -/
structure AnnualDemandProfile where
  year : Int
  off_peak_hours : ℚ := 5000
  shoulder_hours : ℚ := 2500
  peak_hours : ℚ := 1260
  off_peak_demand : ℚ := 1200
  shoulder_demand : ℚ := 1800
  peak_demand : ℚ := 2400
  demand_growth_rate : ℚ := 0.02
deriving DecidableEq, Repr

/-- Source method `AnnualDemandProfile.get_period_demand`: period base demand
scaled by compound growth; `year_offset` defaults to `0` exactly as in the
source. -/
def AnnualDemandProfile.get_period_demand (p : AnnualDemandProfile)
    (period : LoadPeriod) (year_offset : ℕ := 0) : ℚ :=
  let growth_factor := (1 + p.demand_growth_rate) ^ year_offset
  let demand :=
    match period with
    | .OFF_PEAK => p.off_peak_demand
    | .SHOULDER => p.shoulder_demand
    | .PEAK => p.peak_demand
  demand * growth_factor

/-- Source method `AnnualDemandProfile.get_period_hours`. -/
def AnnualDemandProfile.get_period_hours (p : AnnualDemandProfile)
    (period : LoadPeriod) : ℚ :=
  match period with
  | .OFF_PEAK => p.off_peak_hours
  | .SHOULDER => p.shoulder_hours
  | .PEAK => p.peak_hours

/-- A market result, from the dataclass `MarketResult` in
`electricity_market_backend.py` (`market_type`, always `DAY_AHEAD`, and
`timestamp` omitted). -/
structure MarketResult where
  year : Int
  period : LoadPeriod
  clearing_price : ℚ
  cleared_quantity : ℚ
  total_energy : ℚ
  accepted_supply_bids : List String
  marginal_plant : Option String
deriving DecidableEq, Repr

/-- One entry of the `period_bids` list built inside
`MarketEngine.clear_period_market` (the dict with keys
`bid_id`, `plant_id`, `utility_id`, `price`, `quantity`). -/
structure PBid where
  bid_id : String
  plant_id : String
  utility_id : String
  price : ℚ
  quantity : ℚ
deriving DecidableEq, Repr

/-- Price selected for a period from a `YearlyBid`, as in the `if/elif/else`
chain of `clear_period_market`. -/
def periodPrice (b : YearlyBid) (period : LoadPeriod) : ℚ :=
  match period with
  | .OFF_PEAK => b.off_peak_price
  | .SHOULDER => b.shoulder_price
  | .PEAK => b.peak_price

/-- Quantity selected for a period from a `YearlyBid`. -/
def periodQuantity (b : YearlyBid) (period : LoadPeriod) : ℚ :=
  match period with
  | .OFF_PEAK => b.off_peak_quantity
  | .SHOULDER => b.shoulder_quantity
  | .PEAK => b.peak_quantity

/-- The `period_bids` list of `clear_period_market` before sorting: one entry
per input bid with positive quantity for the period, in submission order. -/
def periodBids (supply_bids : List YearlyBid) (period : LoadPeriod) :
    List PBid :=
  supply_bids.filterMap fun b =>
    if 0 < periodQuantity b period then
      some ⟨b.id, b.plant_id, b.utility_id, periodPrice b period,
            periodQuantity b period⟩
    else none

/-- Non-strict price comparison used by `period_bids.sort(key=price)`. -/
def priceLE (a b : PBid) : Prop := a.price ≤ b.price

instance : DecidableRel priceLE := fun a b =>
  inferInstanceAs (Decidable (a.price ≤ b.price))

instance : IsTotal PBid priceLE := ⟨fun a b => le_total a.price b.price⟩

instance : IsTrans PBid priceLE := ⟨fun _ _ _ h1 h2 => le_trans h1 h2⟩

/-- The merit-order sorted bid list of `clear_period_market`: the source
sorts `period_bids` in place by price with Python's stable sort; a stable
sort under a total preorder has a unique output, so the stable
`List.insertionSort` computes the same list. -/
def sortedPeriodBids (supply_bids : List YearlyBid) (period : LoadPeriod) :
    List PBid :=
  List.insertionSort priceLE (periodBids supply_bids period)

/-- State carried by the clearing `for` loop of `clear_period_market`:
`cumulative_supply`, `clearing_price`, `accepted_bids`, `marginal_plant`. -/
structure LoopResult where
  cumulative_supply : ℚ
  clearing_price : ℚ
  accepted_bids : List String
  marginal_plant : Option String
deriving DecidableEq, Repr

/-- The clearing `for` loop of `clear_period_market`: walk the sorted list
accumulating quantity; the first bid whose cumulative quantity reaches the
target sets the price and the marginal plant and ends the loop (`break`);
earlier bids are appended to the accepted list.  Initial values in the source
are `cumulative_supply = 0`, `clearing_price = 0`, `accepted_bids = []`,
`marginal_plant = None`. -/
def marketLoop (target_demand : ℚ) (cum : ℚ) : List PBid → LoopResult
  | [] => ⟨cum, 0, [], none⟩
  | b :: rest =>
    let cum1 := cum + b.quantity
    if target_demand ≤ cum1 then
      ⟨cum1, b.price, [b.bid_id], some b.plant_id⟩
    else
      let r := marketLoop target_demand cum1 rest
      ⟨r.cumulative_supply, r.clearing_price, b.bid_id :: r.accepted_bids,
       r.marginal_plant⟩

/-- Tail of `MarketEngine.clear_period_market` after the sort: run the
clearing loop from `cumulative_supply = 0`, override the price with the
scarcity rule (twice the last - highest - sorted price) when the whole list
was consumed short of the target, and assemble the `MarketResult` with
`cleared_quantity = min target cumulative` and
`total_energy = cleared_quantity * period_hours`. -/
def clearFromSorted (target_demand period_hours : ℚ)
    (sorted_bids : List PBid) (year : Int) (period : LoadPeriod) :
    MarketResult :=
  let r := marketLoop target_demand 0 sorted_bids
  let clearing_price :=
    if h : r.cumulative_supply < target_demand ∧ sorted_bids ≠ [] then
      (sorted_bids.getLast h.2).price * 2
    else r.clearing_price
  let cleared_quantity := min target_demand r.cumulative_supply
  { year := year
    period := period
    clearing_price := clearing_price
    cleared_quantity := cleared_quantity
    total_energy := cleared_quantity * period_hours
    accepted_supply_bids := r.accepted_bids
    marginal_plant := r.marginal_plant }

/-- Source static method `MarketEngine.clear_period_market`: extract and
sort the positive period bids, then clear.  Note that the source calls
`demand_profile.get_period_demand(period)` without a year offset, so the
default offset `0` is used. -/
def clear_period_market (supply_bids : List YearlyBid)
    (demand_profile : AnnualDemandProfile) (period : LoadPeriod)
    (year : Int) : MarketResult :=
  clearFromSorted (demand_profile.get_period_demand period)
    (demand_profile.get_period_hours period)
    (sortedPeriodBids supply_bids period) year period

/-- A power plant, from the dataclass `PowerPlant` in
`electricity_market_backend.py` (cost fields and fuel fields, which the
availability and capacity-factor code never reads, are omitted). -/
structure PowerPlant where
  id : String
  utility_id : String
  plant_type : PlantType
  capacity_mw : ℚ
  commissioning_year : Int
  retirement_year : Int
  capacity_factor : ℚ
  status : PlantStatus := .PLANNED
  maintenance_years : List Int := []
deriving DecidableEq, Repr

/-- Source method `PowerPlant.is_available`: the plant is operating, within
its commissioning/retirement window, and not in a maintenance year. -/
def PowerPlant.is_available (p : PowerPlant) (year : Int) : Bool :=
  decide (p.status = .OPERATING) &&
  decide (p.commissioning_year ≤ year) &&
  decide (year < p.retirement_year) &&
  decide (year ∉ p.maintenance_years)

/-- The solar `factors` table of `PowerPlant.get_capacity_factor`. -/
def solarPeriodMultiplier : LoadPeriod → ℚ
  | .OFF_PEAK => 0.1
  | .SHOULDER => 1.2
  | .PEAK => 1.4

/-- The wind `factors` table of `PowerPlant.get_capacity_factor`. -/
def windPeriodMultiplier : LoadPeriod → ℚ
  | .OFF_PEAK => 1.1
  | .SHOULDER => 0.9
  | .PEAK => 1.0

/-- Source method `PowerPlant.get_capacity_factor`: zero when unavailable;
solar and wind get period multipliers capped at `1`; all other technologies
return the base factor unchanged. -/
def PowerPlant.get_capacity_factor (p : PowerPlant) (year : Int)
    (period : LoadPeriod) : ℚ :=
  if p.is_available year = false then 0
  else
    let base_cf := p.capacity_factor
    if p.plant_type ∈ [PlantType.SOLAR, .WIND_ONSHORE, .WIND_OFFSHORE] then
      let factors : ℚ :=
        if p.plant_type = .SOLAR then solarPeriodMultiplier period
        else windPeriodMultiplier period
      min 1 (base_cf * factors)
    else base_cf

/-- Relevant columns of a `DBGameSession` row of `market_game_api.py`,
together with the four fields of its `demand_profile` JSON column that
`clear_annual_markets` reads. -/
structure DBSession where
  state : GameState
  current_year : Int
  start_year : Int
  end_year : Int
  off_peak_demand : ℚ := 1200
  shoulder_demand : ℚ := 1800
  peak_demand : ℚ := 2400
  demand_growth_rate : ℚ := 0.02
deriving DecidableEq, Repr

/-- The demand profile built at the top of
`YearlyGameFlowManager.clear_annual_markets`: a fresh
`AnnualDemandProfile(year=year)` whose demand fields and growth rate are
overwritten from the session's stored profile (hours keep their defaults). -/
def mkDemandProfile (session : DBSession) (year : Int) : AnnualDemandProfile :=
  { year := year
    off_peak_demand := session.off_peak_demand
    shoulder_demand := session.shoulder_demand
    peak_demand := session.peak_demand
    demand_growth_rate := session.demand_growth_rate }

/-- Python division: raises `ZeroDivisionError` on a zero denominator. -/
def pyDiv (a b : ℚ) : Except String ℚ :=
  if b = 0 then .error "ZeroDivisionError" else .ok (a / b)

/-- Printable state names, as the Python enum members appear in the
invalid-state error message of `clear_annual_markets`. -/
def GameState.pyName : GameState → String
  | .SETUP => "GameStateEnum.setup"
  | .YEAR_PLANNING => "GameStateEnum.year_planning"
  | .BIDDING_OPEN => "GameStateEnum.bidding_open"
  | .MARKET_CLEARING => "GameStateEnum.market_clearing"
  | .YEAR_COMPLETE => "GameStateEnum.year_complete"
  | .GAME_COMPLETE => "GameStateEnum.game_complete"

/-- The invalid-state error message raised by `clear_annual_markets`. -/
def invalidStateMsg (s : GameState) : String :=
  "Cannot clear markets in state: " ++ s.pyName ++
    ". Markets must be in bidding_open state."

/-- Observable outcome of one `clear_annual_markets` call: the session state
it committed, the `DBMarketResult` rows it stored, and the status string,
total revenue and weighted average price of the returned summary. -/
structure ClearOutcome where
  state : GameState
  stored_results : List MarketResult
  status : String
  total_market_revenue : ℚ
  average_price_weighted : ℚ
deriving DecidableEq, Repr

/-- Source method `YearlyGameFlowManager.clear_annual_markets`, over the
session row and the year's bid rows.  Faithful points: the state check, the
no-bids early return (state committed as `year_complete`, zero summary, no
result rows), the three period clearings with the profile built by
`mkDemandProfile`, revenue accumulation, the state commit to
`market_clearing`, and the summary's weighted average price, whose guard in
the source is `if year in self.yearly_results` - true here because the loop
just stored a result for each of the three periods - so its division is
guarded only by the results list being nonempty, not by nonzero energy.
The utility-performance and insight calculations, which the modelled claims
do not mention, are not embedded. -/
def clear_annual_markets (session : DBSession) (year : Int)
    (db_bids : List YearlyBid) : Except String ClearOutcome :=
  if session.state ≠ .BIDDING_OPEN then
    .error (invalidStateMsg session.state)
  else if db_bids = [] then
    .ok { state := .YEAR_COMPLETE
          stored_results := []
          status := "no_bids_submitted"
          total_market_revenue := 0
          average_price_weighted := 0 }
  else
    let demand_profile := mkDemandProfile session year
    let results :=
      [LoadPeriod.OFF_PEAK, .SHOULDER, .PEAK].map fun period =>
        clear_period_market db_bids demand_profile period year
    let total_revenue :=
      (results.map fun r => r.clearing_price * r.total_energy).sum
    do
      let avg ←
        if results ≠ [] then
          pyDiv total_revenue (results.map MarketResult.total_energy).sum
        else pure 0
      pure { state := .MARKET_CLEARING
             stored_results := results
             status := "annual_markets_cleared"
             total_market_revenue := total_revenue
             average_price_weighted := avg }

/-- Source method `YearlyGameFlowManager.complete_year`: commits
`game_complete` and computes final rankings when `year >= end_year`,
otherwise commits `year_complete`.  The boolean records whether final
rankings were computed. -/
def complete_year (session : DBSession) (year : Int) : DBSession × Bool :=
  if session.end_year ≤ year then
    ({ session with state := .GAME_COMPLETE }, true)
  else
    ({ session with state := .YEAR_COMPLETE }, false)

/-- Per-plant body of the `for plant in plants` loop of
`YearlyGameFlowManager._update_plant_statuses`: the three mutation blocks
applied in source order to the plant's status for the given year. -/
def update_plant_status (year : Int) (commissioning_year retirement_year : Int)
    (maintenance_years : List Int) (status : PlantStatus) : PlantStatus :=
  let s1 :=
    if status = .UNDER_CONSTRUCTION ∧ commissioning_year ≤ year then
      PlantStatus.OPERATING
    else status
  let s2 :=
    if year ∈ maintenance_years ∧ s1 = .OPERATING then
      PlantStatus.MAINTENANCE
    else if s1 = .MAINTENANCE ∧ year ∉ maintenance_years then
      PlantStatus.OPERATING
    else s1
  if retirement_year ≤ year ∧ s2 ≠ .RETIRED then PlantStatus.RETIRED else s2

/-- Financial columns of a `DBUser` row in `market_game_api.py`. -/
structure UtilityFinancials where
  budget : ℚ
  debt : ℚ
  equity : ℚ
deriving DecidableEq, Repr

/-- Overnight capital cost per kW of each technology present in the
`PLANT_TEMPLATES_DATA` table of `market_game_api.py`; `none` for the
technologies (hydro, biomass) that have no entry in that table. -/
def overnight_cost_per_kw : PlantType → Option ℚ
  | .COAL => some 4500
  | .NATURAL_GAS_CC => some 1200
  | .NATURAL_GAS_CT => some 800
  | .NUCLEAR => some 8500
  | .SOLAR => some 1400
  | .WIND_ONSHORE => some 1650
  | .WIND_OFFSHORE => some 4200
  | .BATTERY => some 1500
  | .HYDRO => none
  | .BIOMASS => none

/-- Financial effect of the `create_power_plant` endpoint of
`market_game_api.py` on the owning utility, with the computed total capital
cost.  The source rejects a plant type missing from `PLANT_TEMPLATES_DATA`
with a 400 error; otherwise it computes `capacity_kw = capacity_mw * 1000`
and `total_capital_cost = capacity_kw * overnight_cost_per_kw`, then mutates
the utility unconditionally: `budget -= total_capital_cost`,
`debt += total_capital_cost * 0.7`, `equity -= total_capital_cost * 0.3`.
There is no insufficient-funds check anywhere in the endpoint; the plant row
is always created when the plant type is valid. -/
def create_power_plant (u : UtilityFinancials) (plant_type : PlantType)
    (capacity_mw : ℚ) : Except String (UtilityFinancials × ℚ) :=
  match overnight_cost_per_kw plant_type with
  | none => .error "Invalid plant type"
  | some cost_per_kw =>
    let capacity_kw := capacity_mw * 1000
    let total_capital_cost := capacity_kw * cost_per_kw
    .ok ({ budget := u.budget - total_capital_cost
           debt := u.debt + total_capital_cost * 0.7
           equity := u.equity - total_capital_cost * 0.3 },
         total_capital_cost)

/-! Helper facts shared by the claim theorems. -/

/-- Total quantity of a list of period bids. -/
def sumQ (l : List PBid) : ℚ := (l.map PBid.quantity).sum

@[simp]
theorem sumQ_nil : sumQ [] = 0 := rfl

@[simp]
theorem sumQ_cons (b : PBid) (l : List PBid) :
    sumQ (b :: l) = b.quantity + sumQ l := by
  simp [sumQ]

theorem sumQ_nonneg {l : List PBid} (h : ∀ b ∈ l, 0 < b.quantity) :
    0 ≤ sumQ l := by
  induction l with
  | nil => simp
  | cons b t ih =>
    have hb := h b (by simp)
    have ht := ih fun x hx => h x (by simp [hx])
    simp only [sumQ_cons]
    linarith

theorem periodBids_pos (supply_bids : List YearlyBid) (period : LoadPeriod) :
    ∀ b ∈ periodBids supply_bids period, 0 < b.quantity := by
  intro b hb
  simp only [periodBids, List.mem_filterMap] at hb
  obtain ⟨a, _, ha⟩ := hb
  by_cases hq : 0 < periodQuantity a period
  · rw [if_pos hq] at ha
    cases Option.some.inj ha
    exact hq
  · rw [if_neg hq] at ha
    cases ha

theorem sortedPeriodBids_pos (supply_bids : List YearlyBid)
    (period : LoadPeriod) :
    ∀ b ∈ sortedPeriodBids supply_bids period, 0 < b.quantity := fun b hb =>
  periodBids_pos supply_bids period b ((List.mem_insertionSort priceLE).mp hb)

/-! Theorems for the claims of the specification. -/

/-- C10: a plant whose status is `Retired` is never moved to another status
by the yearly status update of `_update_plant_statuses`, for one year and
for any sequence of later years. -/
theorem update_plant_status_retired_terminal
    (commissioning_year retirement_year : Int) (maintenance_years : List Int)
    (years : List Int) :
    (∀ year : Int, update_plant_status year commissioning_year
        retirement_year maintenance_years .RETIRED = .RETIRED) ∧
    years.foldl
        (fun s y => update_plant_status y commissioning_year
          retirement_year maintenance_years s) .RETIRED = .RETIRED := by
  have hstep : ∀ year : Int, update_plant_status year commissioning_year
      retirement_year maintenance_years .RETIRED = .RETIRED := by
    intro y
    simp [update_plant_status]
  refine ⟨hstep, ?_⟩
  induction years with
  | nil => rfl
  | cons y ys ih => simp [List.foldl_cons, hstep y, ih]

/-- C9, counterexample to the claim as stated: with `end_year = 2035`, a
`complete_year` call for `year = 2030 < end_year` commits `year_complete`,
not `year_planning`. -/
theorem complete_year_counterexample :
    (2030 : Int) < 2035 ∧
    (complete_year ⟨.MARKET_CLEARING, 2030, 2025, 2035, 1200, 1800, 2400, 0.02⟩
        2030).1.state = .YEAR_COMPLETE ∧
    GameState.YEAR_COMPLETE ≠ .YEAR_PLANNING := by
  refine ⟨by norm_num, ?_, by decide⟩
  norm_num [complete_year]

/-- C9, amended: `complete_year` commits `game_complete` (and computes
final rankings, the boolean) when `year` is at least `end_year`, and
otherwise commits `year_complete`. -/
theorem complete_year_transitions (session : DBSession) (year : Int) :
    (session.end_year ≤ year →
      complete_year session year =
        ({ session with state := .GAME_COMPLETE }, true)) ∧
    (year < session.end_year →
      complete_year session year =
        ({ session with state := .YEAR_COMPLETE }, false)) := by
  constructor
  · intro h
    simp [complete_year, if_pos h]
  · intro h
    simp [complete_year, if_neg (not_le.mpr h)]

/-- Witness for the amended C9 theorem at concrete sessions, one per
branch. -/
theorem complete_year_transitions_witness :
    ((2035 : Int) ≤ 2035 ∧
      complete_year ⟨.MARKET_CLEARING, 2035, 2025, 2035, 1200, 1800, 2400, 0.02⟩
          2035 =
        ({ (⟨.MARKET_CLEARING, 2035, 2025, 2035, 1200, 1800, 2400, 0.02⟩ :
            DBSession) with state := .GAME_COMPLETE }, true)) ∧
    ((2030 : Int) < 2035 ∧
      complete_year ⟨.MARKET_CLEARING, 2030, 2025, 2035, 1200, 1800, 2400, 0.02⟩
          2030 =
        ({ (⟨.MARKET_CLEARING, 2030, 2025, 2035, 1200, 1800, 2400, 0.02⟩ :
            DBSession) with state := .YEAR_COMPLETE }, false)) :=
  ⟨⟨by norm_num,
    (complete_year_transitions _ 2035).1 (by norm_num)⟩,
   ⟨by norm_num,
    (complete_year_transitions _ 2030).2 (by norm_num)⟩⟩

/-- C4: at a concrete plant creation (100 MW of coal, overnight cost
4500 dollars per kW, so a capital cost of 450000000), the capital-cost
formula, the debt increase of 0.7 times capital and the equity decrease of
0.3 times capital all hold as claimed, but the budget falls by the full
capital cost (to 550000000), not by the 0.3 equity share (which would leave
865000000): the budget clause of the claim is false in the code. -/
theorem create_power_plant_budget_draw_bug :
    create_power_plant ⟨1000000000, 0, 1000000000⟩ .COAL 100 =
      .ok (⟨550000000, 315000000, 865000000⟩, 450000000) ∧
    (450000000 : ℚ) = 100 * 1000 * 4500 ∧
    (315000000 : ℚ) = 0 + 0.7 * 450000000 ∧
    (865000000 : ℚ) = 1000000000 - 0.3 * 450000000 ∧
    (550000000 : ℚ) ≠ 1000000000 - 0.3 * 450000000 := by
  refine ⟨?_, by norm_num, by norm_num, by norm_num, by norm_num⟩
  norm_num [create_power_plant, overnight_cost_per_kw]

/-- C5: a utility whose budget (100 dollars) is far below the 0.3 equity
share (135000000) of a 100 MW coal plant can nevertheless create the plant:
the endpoint performs no insufficient-funds check, the call succeeds, and
the utility's financial state is mutated, with the budget driven negative. -/
theorem create_power_plant_no_insufficient_funds_check :
    create_power_plant ⟨100, 0, 1000000000⟩ .COAL 100 =
      .ok (⟨100 - 450000000, 315000000, 865000000⟩, 450000000) ∧
    (100 : ℚ) < 0.3 * (100 * 1000 * 4500) ∧
    (100 - 450000000 : ℚ) < 0 := by
  refine ⟨?_, by norm_num, by norm_num⟩
  norm_num [create_power_plant, overnight_cost_per_kw]

/-- C7: the effective capacity factor is zero when the plant is
unavailable; an available solar plant gets the period multipliers 0.1, 1.2,
1.4 capped at one; available onshore or offshore wind gets 1.1, 0.9, 1.0
capped at one; every other technology returns the base factor unmodified;
and whenever the base factor is at most one the result is at most one. -/
theorem get_capacity_factor_spec (p : PowerPlant) (year : Int)
    (period : LoadPeriod) :
    (p.is_available year = false → p.get_capacity_factor year period = 0) ∧
    (p.is_available year = true → p.plant_type = .SOLAR →
      p.get_capacity_factor year period =
        min 1 (p.capacity_factor * solarPeriodMultiplier period)) ∧
    (p.is_available year = true →
      (p.plant_type = .WIND_ONSHORE ∨ p.plant_type = .WIND_OFFSHORE) →
      p.get_capacity_factor year period =
        min 1 (p.capacity_factor * windPeriodMultiplier period)) ∧
    (p.is_available year = true →
      p.plant_type ∉ [PlantType.SOLAR, .WIND_ONSHORE, .WIND_OFFSHORE] →
      p.get_capacity_factor year period = p.capacity_factor) ∧
    (p.capacity_factor ≤ 1 → p.get_capacity_factor year period ≤ 1) := by
  refine ⟨?_, ?_, ?_, ?_, ?_⟩
  · intro h
    simp [PowerPlant.get_capacity_factor, h]
  · intro h hs
    simp [PowerPlant.get_capacity_factor, h, hs]
  · intro h hw
    rcases hw with hw | hw <;>
      simp [PowerPlant.get_capacity_factor, h, hw]
  · intro h hn
    simp [PowerPlant.get_capacity_factor, h, hn]
  · intro hcf
    cases hav : p.is_available year with
    | false => simp [PowerPlant.get_capacity_factor, hav]
    | true =>
      by_cases hmem :
          p.plant_type ∈ [PlantType.SOLAR, .WIND_ONSHORE, .WIND_OFFSHORE]
      · simp only [PowerPlant.get_capacity_factor, hav, hmem]
        simp
      · simp [PowerPlant.get_capacity_factor, hav, hmem]
        exact hcf

/-- Witness for C7 at Scenario D: an available solar plant with base
capacity factor 0.27 has effective peak factor 0.378. -/
theorem get_capacity_factor_spec_witness :
    (PowerPlant.mk "s1" "u1" .SOLAR 100 2024 2049 0.27 .OPERATING
        []).is_available 2025 = true ∧
    (PowerPlant.mk "s1" "u1" .SOLAR 100 2024 2049 0.27 .OPERATING
        []).get_capacity_factor 2025 .PEAK = 0.378 := by
  have hav : (PowerPlant.mk "s1" "u1" .SOLAR 100 2024 2049 0.27 .OPERATING
      []).is_available 2025 = true := by decide
  refine ⟨hav, ?_⟩
  have h := (get_capacity_factor_spec
    (PowerPlant.mk "s1" "u1" .SOLAR 100 2024 2049 0.27 .OPERATING [])
    2025 .PEAK).2.1 hav rfl
  rw [h]
  norm_num [solarPeriodMultiplier]

/-- C3, counterexample to the claim as stated: for a session in
`bidding_open` with no bids, the returned status string is
`no_bids_submitted`, not the claimed `no bids submitted`. -/
theorem clear_annual_markets_status_counterexample :
    (clear_annual_markets ⟨.BIDDING_OPEN, 2025, 2025, 2035, 1200, 1800, 2400,
        0.02⟩ 2025 []).map ClearOutcome.status = .ok "no_bids_submitted" ∧
    ("no_bids_submitted" : String) ≠ "no bids submitted" := by
  constructor
  · simp [clear_annual_markets, Except.map]
  · decide

/-- C3, amended: `clear_annual_markets` fails with the invalid-state error
whenever the session state is not `bidding_open`; when the state is
`bidding_open` and there are no bids for the year it succeeds, commits state
`year_complete`, returns status `no_bids_submitted` with a zero summary, and
stores no market-result rows. -/
theorem clear_annual_markets_state_guard (session : DBSession) (year : Int)
    (db_bids : List YearlyBid) :
    (session.state ≠ .BIDDING_OPEN →
      clear_annual_markets session year db_bids =
        .error (invalidStateMsg session.state)) ∧
    (session.state = .BIDDING_OPEN → db_bids = [] →
      clear_annual_markets session year db_bids =
        .ok ⟨.YEAR_COMPLETE, [], "no_bids_submitted", 0, 0⟩) := by
  constructor
  · intro h
    simp [clear_annual_markets, h]
  · intro h hb
    simp [clear_annual_markets, h, hb]

/-- Witness for the amended C3 theorem: a `setup` session is rejected with
the invalid-state error; a `bidding_open` session with no bids ends in
`year_complete` with the no-bids status and no stored results. -/
theorem clear_annual_markets_state_guard_witness :
    (DBSession.mk .SETUP 2025 2025 2035 1200 1800 2400 0.02).state ≠
      .BIDDING_OPEN ∧
    clear_annual_markets (DBSession.mk .SETUP 2025 2025 2035 1200 1800 2400
        0.02) 2025 [] =
      .error (invalidStateMsg .SETUP) ∧
    clear_annual_markets (DBSession.mk .BIDDING_OPEN 2025 2025 2035 1200 1800
        2400 0.02) 2026 [] =
      .ok ⟨.YEAR_COMPLETE, [], "no_bids_submitted", 0, 0⟩ := by
  refine ⟨by decide, ?_, ?_⟩
  · exact (clear_annual_markets_state_guard _ 2025 []).1 (by decide)
  · exact (clear_annual_markets_state_guard _ 2026 []).2 rfl rfl

/-- C8: the weighted-average-price guard of `clear_annual_markets` checks
membership of the year in `yearly_results`, not that the total energy is
nonzero, so a year whose only bid offers zero quantity in every period (the
bid row exists, so clearing proceeds; every period clears zero energy)
raises `ZeroDivisionError` instead of returning zero. -/
theorem average_price_weighted_division_by_zero :
    clear_annual_markets ⟨.BIDDING_OPEN, 2025, 2025, 2035, 1200, 1800, 2400,
        0.02⟩ 2025 [⟨"Z", "u1", "P_Z", 2025, 0, 0, 0, 10, 10, 10⟩] =
      .error "ZeroDivisionError" := by
  norm_num [clear_annual_markets, mkDemandProfile, clear_period_market,
    clearFromSorted, sortedPeriodBids, periodBids, periodQuantity,
    periodPrice, marketLoop, priceLE, AnnualDemandProfile.get_period_demand,
    AnnualDemandProfile.get_period_hours, pyDiv]
  intro h
  simp at h

/-- C6: the demand targeted by period clearing applies no growth.  With the
default profile (off-peak base 1200, growth rate 0.02, start year 2025) and
an ample off-peak bid, clearing year 2026 (offset one year) clears exactly
the base 1200: `clear_period_market` calls `get_period_demand` without a
year offset, while the claimed target for offset one is 1224. -/
theorem clear_period_market_ignores_demand_growth :
    (clear_annual_markets ⟨.BIDDING_OPEN, 2026, 2025, 2035, 1200, 1800, 2400,
          0.02⟩ 2026 [⟨"G", "u1", "P_G", 2026, 5000, 0, 0, 10, 0, 0⟩]).map
        (fun o => o.stored_results.map MarketResult.cleared_quantity) =
      .ok [1200, 0, 0] ∧
    (mkDemandProfile ⟨.BIDDING_OPEN, 2026, 2025, 2035, 1200, 1800, 2400,
        0.02⟩ 2026).get_period_demand .OFF_PEAK 1 = 1224 ∧
    (1200 : ℚ) ≠ 1224 := by
  refine ⟨?_, ?_, by norm_num⟩
  · norm_num [clear_annual_markets, mkDemandProfile, clear_period_market,
      clearFromSorted, sortedPeriodBids, periodBids, periodQuantity,
      periodPrice, marketLoop, priceLE,
      AnnualDemandProfile.get_period_demand,
      AnnualDemandProfile.get_period_hours, pyDiv, Except.map]
    rw [if_neg (List.cons_ne_nil _ _)]
    rfl
  · norm_num [mkDemandProfile, AnnualDemandProfile.get_period_demand]

theorem marketLoop_split (target : ℚ) (pre : List PBid) (m : PBid)
    (suf : List PBid) :
    ∀ cum : ℚ, (∀ b ∈ pre, 0 < b.quantity) →
      cum + sumQ pre < target →
      target ≤ cum + sumQ pre + m.quantity →
      marketLoop target cum (pre ++ m :: suf) =
        ⟨cum + sumQ pre + m.quantity, m.price,
          (pre ++ [m]).map PBid.bid_id, some m.plant_id⟩ := by
  induction pre with
  | nil =>
    intro cum _ hlt hge
    simp only [sumQ_nil, add_zero] at hlt hge
    simp [marketLoop, if_pos hge]
  | cons b rest ih =>
    intro cum hpos hlt hge
    have hrest : ∀ x ∈ rest, 0 < x.quantity := fun x hx =>
      hpos x (List.mem_cons_of_mem b hx)
    have hr0 : 0 ≤ sumQ rest := sumQ_nonneg hrest
    have hlt1 : cum + b.quantity + sumQ rest < target := by
      simp only [sumQ_cons] at hlt
      linarith
    have hnc : ¬ target ≤ cum + b.quantity := by linarith
    have hge1 : target ≤ cum + b.quantity + sumQ rest + m.quantity := by
      simp only [sumQ_cons] at hge
      linarith
    have hrec := ih (cum + b.quantity) hrest hlt1 hge1
    simp only [List.cons_append, marketLoop]
    rw [if_neg hnc]
    simp only [List.append_eq]
    rw [hrec]
    simp only [sumQ_cons, List.map_cons, List.cons_append,
      LoopResult.mk.injEq]
    refine ⟨by ring, trivial, trivial, trivial⟩

theorem marketLoop_exhaust (target : ℚ) (l : List PBid) :
    ∀ cum : ℚ, (∀ b ∈ l, 0 < b.quantity) → cum + sumQ l < target →
      marketLoop target cum l = ⟨cum + sumQ l, 0, l.map PBid.bid_id, none⟩ := by
  induction l with
  | nil =>
    intro cum _ _
    simp [marketLoop]
  | cons b rest ih =>
    intro cum hpos hlt
    have hrest : ∀ x ∈ rest, 0 < x.quantity := fun x hx =>
      hpos x (List.mem_cons_of_mem b hx)
    have hr0 : 0 ≤ sumQ rest := sumQ_nonneg hrest
    have hlt1 : cum + b.quantity + sumQ rest < target := by
      simp only [sumQ_cons] at hlt
      linarith
    have hnc : ¬ target ≤ cum + b.quantity := by linarith
    have hrec := ih (cum + b.quantity) hrest hlt1
    simp only [marketLoop]
    rw [if_neg hnc]
    rw [hrec]
    simp only [sumQ_cons, List.map_cons, LoopResult.mk.injEq]
    refine ⟨by ring, trivial, trivial, trivial⟩

theorem sorted_le_getLast :
    ∀ (l : List PBid), l.Sorted priceLE → (h : l ≠ []) → ∀ b ∈ l,
      b.price ≤ (l.getLast h).price := by
  intro l
  induction l with
  | nil => intro _ h; exact absurd rfl h
  | cons a t ih =>
    intro hs h b hb
    cases t with
    | nil =>
      simp only [List.mem_singleton] at hb
      subst hb
      simp [List.getLast]
    | cons c t2 =>
      rw [List.getLast_cons (List.cons_ne_nil c t2)]
      rcases List.mem_cons.mp hb with rfl | hb2
      · exact List.rel_of_sorted_cons hs _ (List.getLast_mem _)
      · exact ih hs.of_cons (List.cons_ne_nil c t2) b hb2

theorem sumQ_sortedPeriodBids (supply_bids : List YearlyBid)
    (period : LoadPeriod) :
    sumQ (sortedPeriodBids supply_bids period) =
      sumQ (periodBids supply_bids period) :=
  ((List.perm_insertionSort priceLE
    (periodBids supply_bids period)).map PBid.quantity).sum_eq

theorem clearFromSorted_reach (target hours : ℚ) (pre : List PBid)
    (m : PBid) (suf : List PBid) (year : Int) (period : LoadPeriod)
    (hpre : ∀ b ∈ pre, 0 < b.quantity)
    (hlt : sumQ pre < target) (hge : target ≤ sumQ pre + m.quantity) :
    clearFromSorted target hours (pre ++ m :: suf) year period =
      { year := year
        period := period
        clearing_price := m.price
        cleared_quantity := target
        total_energy := target * hours
        accepted_supply_bids := (pre ++ [m]).map PBid.bid_id
        marginal_plant := some m.plant_id } := by
  have hloop := marketLoop_split target pre m suf 0 hpre
    (by simpa using hlt) (by simpa using hge)
  simp only [clearFromSorted, hloop]
  rw [dif_neg]
  · have hmin : min target (0 + sumQ pre + m.quantity) = target :=
      min_eq_left (by simpa using hge)
    simp [MarketResult.mk.injEq, hmin]
    exact ⟨hge, Or.inl hge⟩
  · intro hc
    have := hc.1
    simp only at this
    have hge0 : target ≤ 0 + sumQ pre + m.quantity := by simpa using hge
    exact absurd this (not_lt.mpr hge0)

theorem clearFromSorted_scarcity (target hours : ℚ) (sorted : List PBid)
    (year : Int) (period : LoadPeriod)
    (hpos : ∀ b ∈ sorted, 0 < b.quantity)
    (hne : sorted ≠ [])
    (hshort : sumQ sorted < target) :
    clearFromSorted target hours sorted year period =
      { year := year
        period := period
        clearing_price := (sorted.getLast hne).price * 2
        cleared_quantity := sumQ sorted
        total_energy := sumQ sorted * hours
        accepted_supply_bids := sorted.map PBid.bid_id
        marginal_plant := none } := by
  have hloop := marketLoop_exhaust target sorted 0 hpos
    (by simpa using hshort)
  simp only [clearFromSorted, hloop]
  rw [dif_pos ⟨by simpa using hshort, hne⟩]
  have hmin : min target (0 + sumQ sorted) = sumQ sorted := by
    rw [zero_add]
    exact min_eq_right hshort.le
  simp [MarketResult.mk.injEq, hmin]
  exact ⟨hshort.le, Or.inl hshort.le⟩

/-- C1: when the price-sorted positive-quantity period bids split as
`pre ++ m :: suf` with the cumulative quantity of `pre` strictly below the
target demand and reaching or exceeding it once `m` is added - that is, `m`
is the first bid of the sorted walk at which cumulative quantity reaches
the target - then the clearing price is `m`'s price, `m`'s plant is the
marginal plant, the accepted list is exactly the bids strictly before `m`
plus `m` itself in sorted order, and the cleared quantity equals the target
demand. -/
theorem clear_period_market_merit_order (supply_bids : List YearlyBid)
    (demand_profile : AnnualDemandProfile) (period : LoadPeriod) (year : Int)
    (pre : List PBid) (m : PBid) (suf : List PBid)
    (hsplit : sortedPeriodBids supply_bids period = pre ++ m :: suf)
    (hlt : sumQ pre < demand_profile.get_period_demand period)
    (hge : demand_profile.get_period_demand period ≤ sumQ pre + m.quantity) :
    (clear_period_market supply_bids demand_profile period
        year).clearing_price = m.price ∧
    (clear_period_market supply_bids demand_profile period
        year).marginal_plant = some m.plant_id ∧
    (clear_period_market supply_bids demand_profile period
        year).accepted_supply_bids = (pre ++ [m]).map PBid.bid_id ∧
    (clear_period_market supply_bids demand_profile period
        year).cleared_quantity = demand_profile.get_period_demand period := by
  have hpre : ∀ b ∈ pre, 0 < b.quantity := fun b hb =>
    sortedPeriodBids_pos supply_bids period b
      (hsplit ▸ List.mem_append_left _ hb)
  have heq : clear_period_market supply_bids demand_profile period year =
      clearFromSorted (demand_profile.get_period_demand period)
        (demand_profile.get_period_hours period) (pre ++ m :: suf) year
        period := by
    unfold clear_period_market
    rw [hsplit]
  rw [heq, clearFromSorted_reach _ _ _ _ _ _ _ hpre hlt hge]
  exact ⟨rfl, rfl, rfl, rfl⟩

/-- C2: when at least one positive-quantity period bid exists but the total
positive-quantity supply falls short of the target demand, the clearing
price is twice the highest submitted (positive-quantity) price `P`, every
period bid is accepted (the accepted list is the whole sorted list), the
cleared quantity is `min target supply`, which equals the total submitted
supply, and the total energy is the cleared quantity times the period
hours. -/
theorem clear_period_market_scarcity (supply_bids : List YearlyBid)
    (demand_profile : AnnualDemandProfile) (period : LoadPeriod) (year : Int)
    (P : ℚ)
    (hne : periodBids supply_bids period ≠ [])
    (hshort : sumQ (periodBids supply_bids period) <
      demand_profile.get_period_demand period)
    (hub : ∀ b ∈ periodBids supply_bids period, b.price ≤ P)
    (hmem : ∃ b ∈ periodBids supply_bids period, b.price = P) :
    (clear_period_market supply_bids demand_profile period
        year).clearing_price = 2 * P ∧
    (clear_period_market supply_bids demand_profile period
        year).accepted_supply_bids =
      (sortedPeriodBids supply_bids period).map PBid.bid_id ∧
    (∀ b ∈ periodBids supply_bids period, b.bid_id ∈
      (clear_period_market supply_bids demand_profile period
        year).accepted_supply_bids) ∧
    (clear_period_market supply_bids demand_profile period
        year).cleared_quantity =
      min (demand_profile.get_period_demand period)
        (sumQ (periodBids supply_bids period)) ∧
    (clear_period_market supply_bids demand_profile period
        year).cleared_quantity = sumQ (periodBids supply_bids period) ∧
    (clear_period_market supply_bids demand_profile period
        year).total_energy =
      (clear_period_market supply_bids demand_profile period
        year).cleared_quantity *
        demand_profile.get_period_hours period := by
  have hsne : sortedPeriodBids supply_bids period ≠ [] := by
    intro h
    apply hne
    have hperm := List.perm_insertionSort priceLE
      (periodBids supply_bids period)
    rw [sortedPeriodBids] at h
    rw [h] at hperm
    exact hperm.symm.eq_nil
  have hsum := sumQ_sortedPeriodBids supply_bids period
  have hpos := sortedPeriodBids_pos supply_bids period
  have hs : (sortedPeriodBids supply_bids period).Sorted priceLE :=
    List.sorted_insertionSort priceLE (periodBids supply_bids period)
  have hlast_le : ((sortedPeriodBids supply_bids period).getLast
      hsne).price ≤ P :=
    hub _ ((List.mem_insertionSort priceLE).mp (List.getLast_mem hsne))
  have hlast_ge : P ≤ ((sortedPeriodBids supply_bids period).getLast
      hsne).price := by
    obtain ⟨b, hbmem, hbP⟩ := hmem
    exact hbP ▸ sorted_le_getLast _ hs hsne b
      ((List.mem_insertionSort priceLE).mpr hbmem)
  have hlastP : ((sortedPeriodBids supply_bids period).getLast
      hsne).price = P := le_antisymm hlast_le hlast_ge
  have heq : clear_period_market supply_bids demand_profile period year =
      clearFromSorted (demand_profile.get_period_demand period)
        (demand_profile.get_period_hours period)
        (sortedPeriodBids supply_bids period) year period := rfl
  rw [heq, clearFromSorted_scarcity _ _ _ _ _ hpos hsne
    (by rw [hsum]; exact hshort)]
  refine ⟨by rw [hlastP]; ring, rfl, ?_, ?_, by rw [hsum], by rw [hsum]⟩
  · intro b hb
    exact List.mem_map_of_mem PBid.bid_id
      ((List.mem_insertionSort priceLE).mpr hb)
  · rw [hsum, min_eq_right hshort.le]

/-- Scenario A off-peak bid of plant A: 1000 MW at 30 dollars. -/
def bidScenA : YearlyBid := ⟨"A", "u1", "P_A", 2025, 1000, 0, 0, 30, 0, 0⟩

/-- Scenario A off-peak bid of plant B: 1000 MW at 50 dollars. -/
def bidScenB : YearlyBid := ⟨"B", "u2", "P_B", 2025, 1000, 0, 0, 50, 0, 0⟩

/-- Scenario A demand profile: off-peak target demand 1500 MW. -/
def profileScenA : AnnualDemandProfile := { year := 2025, off_peak_demand := 1500 }

/-- Witness for C1 at Scenario A: bids of 1000 MW at 30 and 1000 MW at 50
against a 1500 MW off-peak target clear at price 50 and quantity 1500 with
marginal plant B and accepted list A then B. -/
theorem clear_period_market_merit_order_witness :
    (clear_period_market [bidScenA, bidScenB] profileScenA .OFF_PEAK
        2025).clearing_price = 50 ∧
    (clear_period_market [bidScenA, bidScenB] profileScenA .OFF_PEAK
        2025).cleared_quantity = 1500 ∧
    (clear_period_market [bidScenA, bidScenB] profileScenA .OFF_PEAK
        2025).marginal_plant = some "P_B" ∧
    (clear_period_market [bidScenA, bidScenB] profileScenA .OFF_PEAK
        2025).accepted_supply_bids = ["A", "B"] := by
  have hsort : sortedPeriodBids [bidScenA, bidScenB] .OFF_PEAK =
      [⟨"A", "P_A", "u1", 30, 1000⟩, ⟨"B", "P_B", "u2", 50, 1000⟩] := by
    norm_num [sortedPeriodBids, periodBids, periodQuantity, periodPrice,
      priceLE, bidScenA, bidScenB]
  have htarget : profileScenA.get_period_demand .OFF_PEAK = 1500 := by
    norm_num [AnnualDemandProfile.get_period_demand, profileScenA]
  obtain ⟨h1, h2, h3, h4⟩ := clear_period_market_merit_order
    [bidScenA, bidScenB] profileScenA .OFF_PEAK 2025
    [⟨"A", "P_A", "u1", 30, 1000⟩] ⟨"B", "P_B", "u2", 50, 1000⟩ []
    (by rw [hsort]; rfl)
    (by rw [htarget]; norm_num [sumQ])
    (by rw [htarget]; norm_num [sumQ])
  refine ⟨?_, ?_, ?_, ?_⟩
  · rw [h1]
  · rw [h4, htarget]
  · rw [h2]
  · rw [h3]
    rfl

/-- Scenario B peak bid one: 1000 MW at 40 dollars. -/
def bidScenC : YearlyBid := ⟨"S1", "u1", "P_S1", 2025, 0, 0, 1000, 0, 0, 40⟩

/-- Scenario B peak bid two: 800 MW at 60 dollars. -/
def bidScenD : YearlyBid := ⟨"S2", "u2", "P_S2", 2025, 0, 0, 800, 0, 0, 60⟩

/-- Scenario B demand profile: peak target demand 2000 MW. -/
def profileScenB : AnnualDemandProfile := { year := 2025, peak_demand := 2000 }

/-- Witness for C2 at Scenario B: peak bids totalling 1800 MW with maximum
price 60 against a 2000 MW target clear at the scarcity price 120 with
cleared quantity 1800, every bid accepted, and total energy
1800 times 1260. -/
theorem clear_period_market_scarcity_witness :
    (clear_period_market [bidScenC, bidScenD] profileScenB .PEAK
        2025).clearing_price = 120 ∧
    (clear_period_market [bidScenC, bidScenD] profileScenB .PEAK
        2025).cleared_quantity = 1800 ∧
    (clear_period_market [bidScenC, bidScenD] profileScenB .PEAK
        2025).accepted_supply_bids = ["S1", "S2"] ∧
    (clear_period_market [bidScenC, bidScenD] profileScenB .PEAK
        2025).total_energy = 2268000 := by
  have hpb : periodBids [bidScenC, bidScenD] .PEAK =
      [⟨"S1", "P_S1", "u1", 40, 1000⟩, ⟨"S2", "P_S2", "u2", 60, 800⟩] := by
    norm_num [periodBids, periodQuantity, periodPrice, bidScenC, bidScenD,
      List.filterMap_cons, List.filterMap_nil]
  have hsort : sortedPeriodBids [bidScenC, bidScenD] .PEAK =
      [⟨"S1", "P_S1", "u1", 40, 1000⟩, ⟨"S2", "P_S2", "u2", 60, 800⟩] := by
    norm_num [sortedPeriodBids, periodBids, periodQuantity, periodPrice,
      priceLE, bidScenC, bidScenD, List.filterMap_cons, List.filterMap_nil]
  have htarget : profileScenB.get_period_demand .PEAK = 2000 := by
    norm_num [AnnualDemandProfile.get_period_demand, profileScenB]
  have hhours : profileScenB.get_period_hours .PEAK = 1260 := by
    norm_num [AnnualDemandProfile.get_period_hours, profileScenB]
  obtain ⟨h1, h2, h3, h4, h5, h6⟩ := clear_period_market_scarcity
    [bidScenC, bidScenD] profileScenB .PEAK 2025 60
    (by rw [hpb]; simp)
    (by rw [hpb, htarget]; norm_num [sumQ])
    (by
      rw [hpb]
      intro b hb
      rcases List.mem_cons.mp hb with rfl | hb2
      · norm_num
      · rcases List.mem_singleton.mp hb2 with rfl
        norm_num)
    ⟨⟨"S2", "P_S2", "u2", 60, 800⟩, by rw [hpb]; simp, rfl⟩
  have hq : sumQ (periodBids [bidScenC, bidScenD] .PEAK) = 1800 := by
    rw [hpb]
    norm_num [sumQ]
  refine ⟨?_, ?_, ?_, ?_⟩
  · rw [h1]
    norm_num
  · rw [h5, hq]
  · rw [h2, hsort]
    rfl
  · rw [h6, h5, hq, hhours]
    norm_num

end ElectricityMarket
